import Mathlib

/-!
Verification of the authentication and access-control core of the
fastapi-backend-template repository, as a shallow embedding in Lean 4.

The embedding follows the source files:
  * `app/models/user.py`      — the `User` table model;
  * `app/core/security.py`    — password hashing wrappers and `create_access_token`;
  * `app/api/deps.py`         — `get_current_user`, `get_current_admin_user`;
  * `app/api/v1/endpoints/auth.py` — the `login` endpoint;
  * `app/services/user.py`    — `UserService.create_user`;
  * `app/crud/user.py`        — `CRUDUser.get_by_email`, `create`, `update`.

External collaborators (the bcrypt hasher behind `passlib`, the JWT
encoder/decoder behind `pyjwt`, and the missing `app/crud/base.py`) are
modelled from the spec, each with a doc comment saying so.
-/

namespace FastApiTemplate

/-- The `User` table model from `app/models/user.py` together with the `id`
field inherited from `RawModel` in `app/models/base.py`.  `full_name`,
`is_active` and `last_login` are `Optional` in the source, and `is_active`
defaults to `True`.  The DB-server-managed timestamp columns `created_at` and
`updated_at` (server defaults / `onupdate` triggers, never touched by the
authentication code) are omitted; the model declares no admin flag field.
Database ids are modelled as `Nat` and timestamps as `Nat` seconds. -/
structure User where
  id : Nat
  email : String
  full_name : Option String
  hashed_password : String
  is_active : Option Bool
  last_login : Option Nat
deriving DecidableEq, Repr

/-- An HTTP error as raised by `HTTPException(status_code, detail)`. -/
structure HTTPError where
  status : Nat
  detail : String
deriving DecidableEq, Repr

/-- `deps.py`: `HTTPException(401, "Could not validate credentials")`. -/
def credentials_exception : HTTPError :=
  { status := 401, detail := "Could not validate credentials" }

/-- `deps.py` / `auth.py`: `HTTPException(401, "User account is inactive")`. -/
def inactive_error : HTTPError :=
  { status := 401, detail := "User account is inactive" }

/-- `auth.py`: `HTTPException(401, "Incorrect email or password")`. -/
def invalid_credentials_error : HTTPError :=
  { status := 401, detail := "Incorrect email or password" }

/-- `deps.py`: `HTTPException(403, "Admin privileges required")`. -/
def admin_forbidden_error : HTTPError :=
  { status := 403, detail := "Admin privileges required" }

/-- `services/user.py`: `HTTPException(400, "The user with this email already exists.")`. -/
def email_exists_error : HTTPError :=
  { status := 400, detail := "The user with this email already exists." }

/-- Python truthiness of an `Optional[bool]` value: `None` and `False` are
falsy, `True` is truthy.  Used for `if not user.is_active`. -/
def pyTruthy : Option Bool → Bool
  | some b => b
  | none => false

/-- The settings consumed by the core (`app/core/config.py`):
the signing key and the token TTL in minutes. -/
structure Settings where
  SECRET_KEY : String
  ACCESS_TOKEN_EXPIRE_MINUTES : Nat
deriving DecidableEq, Repr

/-! ## Credential Hasher

`app/core/security.py` delegates `hash_password` / `verify_password` to
`passlib`'s bcrypt, an external library whose code is not part of this
repository.  -/

/-- The bcrypt-style header of a credential string (algorithm identifier and
cost factor), per spec §6: "self-describing hash string embedding algorithm
identifier, cost factor, salt, and digest (bcrypt-class format)". -/
def bcryptHeader : List Char := "$2b$12$".data

/-- Drop `p` from the front of `l`; `none` if `l` does not start with `p`. -/
def dropLeading : List Char → List Char → Option (List Char)
  | [], l => some l
  | _ :: _, [] => none
  | p :: ps, c :: cs => if p = c then dropLeading ps cs else none

/-- Count the leading `'0'` characters and return the rest. -/
def countZeros : List Char → Nat × List Char
  | [] => (0, [])
  | c :: cs =>
    if c = '0' then
      let r := countZeros cs
      (r.1 + 1, r.2)
    else (0, c :: cs)

/-- Modelled from the spec: the salted one-way bcrypt hash behind
`pwd_context.hash` in `app/core/security.py` (the bcrypt implementation
lives in the external `passlib` library).  Per spec §4.1 the credential
embeds its salt and a digest of the secret; one-wayness is outside the
embedding, so the digest is modelled as an injective function of the
secret, and the salt (a `Nat`) is encoded in unary. -/
def hash_password (salt : Nat) (password : String) : String :=
  ⟨bcryptHeader ++ List.replicate salt '0' ++ '$' :: password.data⟩

/-- Parse a credential string produced by `hash_password`: strip the header,
read the unary salt, and return the salt together with the digest part. -/
def parseCredential (credential : String) : Option (Nat × List Char) :=
  match dropLeading bcryptHeader credential.data with
  | none => none
  | some rest =>
    match countZeros rest with
    | (n, '$' :: d) => some (n, d)
    | _ => none

/-- Modelled from the spec: `pwd_context.verify` in `app/core/security.py`
(spec §4.1: "recomputes using the salt embedded in `credential`";
returns false on any malformed credential rather than throwing). -/
def verify_password (plain_password : String) (hashed_password : String) : Bool :=
  match parseCredential hashed_password with
  | some (salt, _) => hashed_password == hash_password salt plain_password
  | none => false

/-! ## Token Codec

`app/core/security.py` and `app/api/deps.py` delegate encoding/decoding to
the external `pyjwt` library; the codec is modelled from the spec §4.2. -/

/-- The claim payload carried by the app's tokens: an optional `"sub"` claim
(`payload.get("sub")` in `deps.py` may be `None`) and the `"exp"` claim that
`create_access_token` always sets. -/
structure JWTPayload where
  sub : Option String
  exp : Nat
deriving DecidableEq, Repr

/-- Modelled from the spec: the HMAC-SHA256-class signature computed by the
external `pyjwt` library over the serialized payload under the process-wide
key (spec §4.2, §6).  Cryptographic strength is outside the embedding; only
"the signature the key yields on this payload" matters to the claims, so the
signature is modelled as the deterministic tagged serialization of key and
payload. -/
def jwt_sign (key : String) (p : JWTPayload) : String :=
  key ++ "|" ++ toString p.sub ++ "|" ++ toString p.exp

/-- A structurally well-formed signed token: payload plus signature.
(A byte-level malformed token never reaches the signature check and is
rejected by the decoder as `MALFORMED`; such strings are outside this type,
which models the tokens that parse.) -/
structure JWT where
  payload : JWTPayload
  sig : String
deriving DecidableEq, Repr

/-- Rejection reasons of the token codec (spec §4.2); `pyjwt` raises
`InvalidSignatureError` / `ExpiredSignatureError`, both subclasses of the
`InvalidTokenError` caught in `deps.py`. -/
inductive JWTReject where
  | badSignature
  | expired
deriving DecidableEq, Repr

/-- Modelled from the spec: `jwt.encode(payload, key, algorithm)` — sign the
payload under the key. -/
def jwt_encode (key : String) (p : JWTPayload) : JWT :=
  { payload := p, sig := jwt_sign key p }

/-- Modelled from the spec: `jwt.decode(token, key, algorithms)` — verify the
signature, then reject an expired token (`pyjwt` rejects once `exp <= now`),
else return the payload (spec §4.2: verification is a pure function of
token, current time and configured key). -/
def jwt_decode (key : String) (now : Nat) (t : JWT) : Except JWTReject JWTPayload :=
  if t.sig ≠ jwt_sign key t.payload then .error .badSignature
  else if t.payload.exp ≤ now then .error .expired
  else .ok t.payload

/-- `create_access_token` from `app/core/security.py`, called with
`data = {"sub": subject}`: the source branches on `if expires_delta:`, a
Python truthiness test under which both `None` and the falsy `timedelta(0)`
fall through to the 15-minute default, so `exp = now + expires_delta` only
for a non-`None`, nonzero delta and `exp = now + 15 * 60` otherwise; the
payload is signed with the configured key.  `expires_delta` is in
seconds. -/
def create_access_token (key : String) (subject : String) (now : Nat)
    (expires_delta : Option Nat) : JWT :=
  let expire :=
    match expires_delta with
    | some d => if 0 < d then now + d else now + 15 * 60
    | none => now + 15 * 60
  jwt_encode key { sub := some subject, exp := expire }

/-! ## Account Directory -/

/-- `CRUDUser.get_by_email` from `app/crud/user.py`:
`select(User).where(User.email == email)`, first result or `None`.
The database is modelled as the list of user rows. -/
def get_by_email (db : List User) (email : String) : Option User :=
  db.find? (fun u => u.email == email)

/-! ## Identity Resolver and Authorization Gate (`app/api/deps.py`) -/

/-- `get_current_user` from `app/api/deps.py`: decode the bearer token
(any `InvalidTokenError` and a missing `"sub"` claim raise the 401
`credentials_exception`), look the subject up by email (missing user raises
the same 401), reject an inactive user with 401 "User account is inactive",
else return the user. -/
def get_current_user (key : String) (db : List User) (now : Nat) (token : JWT) :
    Except HTTPError User :=
  match jwt_decode key now token with
  | .error _ => .error credentials_exception
  | .ok payload =>
    match payload.sub with
    | none => .error credentials_exception
    | some email =>
      match get_by_email db email with
      | none => .error credentials_exception
      | some user =>
        if ¬ pyTruthy user.is_active then .error inactive_error
        else .ok user

/-- Python `getattr(current_user, "is_superuser", False)` as evaluated on
this repository's `User` model: `app/models/user.py` declares no
`is_superuser` field, so the attribute is absent on every instance and
`getattr` returns its default `False`. -/
def getattr_is_superuser (_ : User) : Bool := false

/-- `get_current_admin_user` from `app/api/deps.py`: reject with 403 unless
`getattr(current_user, "is_superuser", False)` is truthy, else pass the
resolved user through. -/
def get_current_admin_user (current_user : User) : Except HTTPError User :=
  if ¬ getattr_is_superuser current_user then .error admin_forbidden_error
  else .ok current_user

/-! ## Login flow (`app/api/v1/endpoints/auth.py`) -/

/-- The `Token` response schema from `app/schemas/token.py`; the encoded JWT
string is carried as the structured token. -/
structure Token where
  access_token : JWT
  token_type : String
deriving DecidableEq, Repr

/-- `CRUDUser.update` from `app/crud/user.py` as called by `login` with
`obj_in = {"last_login": now}`: the dict holds no `"password"` key, so the
only field written on the fetched row is `last_login`; the change is then
committed.  Modelled as replacing that row in the database list. -/
def update_last_login (db : List User) (db_obj : User) (now : Nat) : List User :=
  db.map (fun u => if u = db_obj then { u with last_login := some now } else u)

/-- The `login` endpoint from `app/api/v1/endpoints/auth.py`: look the form
username up by email; a missing user or a failing password check raises 401
"Incorrect email or password"; an inactive user raises 401 "User account is
inactive"; otherwise issue a token for the user's email expiring
`ACCESS_TOKEN_EXPIRE_MINUTES` from now, update `last_login`, and return the
token with `token_type = "bearer"`.  Returns the response together with the
resulting database state. -/
def login (cfg : Settings) (db : List User) (now : Nat)
    (username password : String) : Except HTTPError Token × List User :=
  match get_by_email db username with
  | none => (.error invalid_credentials_error, db)
  | some user =>
    if ¬ verify_password password user.hashed_password then
      (.error invalid_credentials_error, db)
    else if ¬ pyTruthy user.is_active then
      (.error inactive_error, db)
    else
      let access_token := create_access_token cfg.SECRET_KEY user.email now
        (some (cfg.ACCESS_TOKEN_EXPIRE_MINUTES * 60))
      (.ok { access_token := access_token, token_type := "bearer" },
        update_last_login db user now)

/-! ## Registration (`app/services/user.py` and `app/crud/user.py`) -/

/-- The `UserCreate` schema from `app/schemas/user.py`. -/
structure UserCreate where
  email : String
  full_name : String
  password : String
deriving DecidableEq, Repr

/-- Python `password.startswith("$")` from `app/crud/user.py`: the string's
first character is `'$'`. -/
def startswith_dollar (s : String) : Bool :=
  match s.data with
  | '$' :: _ => true
  | _ => false

/-- `CRUDUser.create` from `app/crud/user.py`: a password that starts with
`"$"` is taken to be "already hashed" and stored verbatim; any other
password is hashed before storage.  The new row gets `is_active = True` and
`last_login = None` (model defaults); the fresh `uuid4` id and the bcrypt
salt are passed in as parameters.  Returns the created row and the new
database state. -/
def crud_create (new_id : Nat) (salt : Nat) (db : List User) (obj_in : UserCreate) :
    User × List User :=
  let hashed_password :=
    if startswith_dollar obj_in.password then obj_in.password
    else hash_password salt obj_in.password
  let db_obj : User :=
    { id := new_id, email := obj_in.email, full_name := some obj_in.full_name,
      hashed_password := hashed_password, is_active := some true, last_login := none }
  (db_obj, db ++ [db_obj])

/-- `UserService.create_user` from `app/services/user.py`: reject a
registration whose email already exists with 400 "The user with this email
already exists."; then validate that email, full name and password are
non-blank; then hash the password and delegate to `CRUDUser.create` with the
stripped fields and the hashed password (which starts with `"$"`, so the
CRUD layer stores it verbatim).  Returns the outcome and the resulting
database state. -/
def create_user (new_id : Nat) (salt : Nat) (db : List User) (user_in : UserCreate) :
    Except HTTPError User × List User :=
  match get_by_email db user_in.email with
  | some _ => (.error email_exists_error, db)
  | none =>
    if user_in.email.trim = "" then
      (.error { status := 400, detail := "Email is required." }, db)
    else if user_in.full_name.trim = "" then
      (.error { status := 400, detail := "Full name is required." }, db)
    else if user_in.password.trim = "" then
      (.error { status := 400, detail := "Password is required." }, db)
    else
      let hashed := hash_password salt user_in.password
      let stripped : UserCreate :=
        { email := user_in.email.trim, full_name := user_in.full_name.trim,
          password := hashed }
      let r := crud_create new_id salt db stripped
      (.ok r.1, r.2)

/-! ## The list-all-users endpoint (`app/api/v1/endpoints/user.py`) -/

/-- The validated pagination parameters from `app/api/deps.py`
(`skip >= 0`, `1 <= limit <= 200`, defaults 0 and 100). -/
structure PaginationParams where
  skip : Nat
  limit : Nat
deriving DecidableEq, Repr

/-- The `UserRead` response schema from `app/schemas/user.py`. -/
structure UserRead where
  id : Nat
  email : String
  full_name : Option String
deriving DecidableEq, Repr

/-- `UserRead.model_validate(user)`: project a row to its readable fields. -/
def UserRead.ofUser (u : User) : UserRead :=
  { id := u.id, email := u.email, full_name := u.full_name }

/-- The `PaginationMeta` schema from `app/schemas/response.py`. -/
structure PaginationMeta where
  total_items : Nat
  total_pages : Nat
  current_page : Nat
  limit : Nat
deriving DecidableEq, Repr

/-- Modelled from the spec: `CRUDBase.get_multi(db, skip, limit)` from
`app/crud/base.py`, a file absent from the sources (only imported by
`app/crud/user.py`) — offset/limit pagination over the account directory,
per the spec's treatment of pagination as a simple collaborator (§1). -/
def get_multi (db : List User) (skip limit : Nat) : List User :=
  (db.drop skip).take limit

/-- Modelled from the spec: `CRUDBase.get_count(db)` from the absent
`app/crud/base.py` — the number of rows. -/
def get_count (db : List User) : Nat := db.length

/-- The `read_users` endpoint from `app/api/v1/endpoints/user.py`
("Get all users (admin only endpoint)").  Its identity dependency is
`current_admin: User = Depends(get_current_user)` — the ordinary
authenticated-user dependency, not `get_current_admin_user` — and the
handler body never consults the resolved user: it pages over all rows and
returns them with pagination metadata. -/
def read_users (key : String) (db : List User) (now : Nat) (token : JWT)
    (pagination : PaginationParams) :
    Except HTTPError (List UserRead × PaginationMeta) :=
  match get_current_user key db now token with
  | .error e => .error e
  | .ok _ =>
    let total_rows := get_count db
    let total_pages :=
      if pagination.limit > 0 then (total_rows + pagination.limit - 1) / pagination.limit
      else 0
    let current_page :=
      if pagination.limit > 0 then pagination.skip / pagination.limit + 1 else 1
    .ok ((get_multi db pagination.skip pagination.limit).map UserRead.ofUser,
      { total_items := total_rows, total_pages := total_pages,
        current_page := current_page, limit := pagination.limit })

/-! ## Concrete fixtures

Sample rows, settings and tokens used to instantiate the theorems on
concrete inputs (the registration scenario of spec §8 uses
`{email: "a@x.com", full_name: "A", password: "pw123456"}`). -/

/-- Sample settings: the defaults from `app/core/config.py`. -/
def sampleSettings : Settings :=
  { SECRET_KEY := "super-secret-key-placeholder", ACCESS_TOKEN_EXPIRE_MINUTES := 30 }

/-- A sample active account with the credential of `"pw123456"` under salt 3. -/
def sampleUser : User :=
  { id := 1, email := "a@x.com", full_name := some "A",
    hashed_password := hash_password 3 "pw123456",
    is_active := some true, last_login := none }

/-- A sample deactivated account with the credential of `"pw123456"` under salt 4. -/
def sampleInactiveUser : User :=
  { id := 2, email := "b@x.com", full_name := some "B",
    hashed_password := hash_password 4 "pw123456",
    is_active := some false, last_login := none }

/-- A sample database holding the two sample accounts. -/
def sampleDb : List User := [sampleUser, sampleInactiveUser]

/-- A sample token for `sampleUser`, signed with the sample key, expiring at 100. -/
def sampleToken : JWT :=
  jwt_encode sampleSettings.SECRET_KEY { sub := some "a@x.com", exp := 100 }

/-! ## Helper lemmas about the credential model -/

theorem dropLeading_append : ∀ (p l : List Char), dropLeading p (p ++ l) = some l
  | [], _ => rfl
  | c :: cs, l => by simp [dropLeading, dropLeading_append cs l]

theorem countZeros_replicate (n : Nat) (l : List Char) :
    countZeros (List.replicate n '0' ++ '$' :: l) = (n, '$' :: l) := by
  induction n with
  | zero => simp [countZeros]
  | succ k ih => simp [List.replicate_succ, countZeros, ih]

theorem parseCredential_hash (salt : Nat) (s : String) :
    parseCredential (hash_password salt s) = some (salt, s.data) := by
  simp [parseCredential, hash_password, dropLeading_append, countZeros_replicate]

theorem hash_password_inj {salt₁ salt₂ : Nat} {s₁ s₂ : String}
    (h : hash_password salt₁ s₁ = hash_password salt₂ s₂) : salt₁ = salt₂ ∧ s₁ = s₂ := by
  have hp : (some (salt₁, s₁.data) : Option (Nat × List Char)) = some (salt₂, s₂.data) := by
    rw [← parseCredential_hash salt₁ s₁, h, parseCredential_hash]
  simp only [Option.some.injEq, Prod.mk.injEq] at hp
  exact ⟨hp.1, String.ext hp.2⟩

theorem verify_password_hash_self (salt : Nat) (s : String) :
    verify_password s (hash_password salt s) = true := by
  simp [verify_password, parseCredential_hash]

theorem verify_password_hash_ne {s₁ s₂ : String} (h : s₁ ≠ s₂) (salt : Nat) :
    verify_password s₁ (hash_password salt s₂) = false := by
  simp only [verify_password, parseCredential_hash]
  rw [beq_eq_false_iff_ne]
  intro hcontra
  exact h ((hash_password_inj hcontra).2.symm)

/-! ## Claim theorems -/

/-- C7: for all plaintext secrets `s`, `verify(s, hash(s))` is true; for
`s₁ ≠ s₂`, `verify(s₁, hash(s₂))` is false; and hashing the same secret
under two different salts yields two different credential strings, so
credential equality is never decided by string comparison of hashes. -/
theorem claim_C7_hash_verify_roundtrip (salt salt₁ salt₂ : Nat) (s s₁ s₂ : String) :
    verify_password s (hash_password salt s) = true ∧
    (s₁ ≠ s₂ → verify_password s₁ (hash_password salt s₂) = false) ∧
    (salt₁ ≠ salt₂ → hash_password salt₁ s ≠ hash_password salt₂ s) := by
  refine ⟨verify_password_hash_self salt s, fun h => verify_password_hash_ne h salt, ?_⟩
  intro hsalt hcontra
  exact hsalt (hash_password_inj hcontra).1

/-- Witness for C7 at concrete inputs: secrets `"pw123456"` and `"other"`,
salts `3` and `5`. -/
theorem claim_C7_hash_verify_roundtrip_witness :
    ("pw123456" : String) ≠ "other" ∧ (3 : Nat) ≠ 5 ∧
    (verify_password "pw123456" (hash_password 3 "pw123456") = true ∧
      verify_password "pw123456" (hash_password 3 "other") = false ∧
      hash_password 3 "pw123456" ≠ hash_password 5 "pw123456") := by
  have h := claim_C7_hash_verify_roundtrip 3 3 5 "pw123456" "pw123456" "other"
  exact ⟨by decide, by decide,
    h.1, h.2.1 (by decide), h.2.2 (by decide)⟩

/-- C10: in `CRUDUser.create`, a supplied password whose first character is
`'$'` is stored verbatim as the credential, while every other password is
hashed before storage. -/
theorem claim_C10_crud_create_dollar_passwords (new_id salt : Nat)
    (db : List User) (obj_in : UserCreate) :
    (startswith_dollar obj_in.password = true →
      (crud_create new_id salt db obj_in).1.hashed_password = obj_in.password) ∧
    (startswith_dollar obj_in.password = false →
      (crud_create new_id salt db obj_in).1.hashed_password =
        hash_password salt obj_in.password) := by
  constructor <;> intro h <;> simp [crud_create, h]

/-- Witness for C10: the plaintext `"$ecret"` is stored verbatim, the
plaintext `"pw123456"` is hashed. -/
theorem claim_C10_crud_create_dollar_passwords_witness :
    (startswith_dollar "$ecret" = true ∧
      (crud_create 1 3 [] { email := "a@x.com", full_name := "A", password := "$ecret" }).1.hashed_password
        = "$ecret") ∧
    (startswith_dollar "pw123456" = false ∧
      (crud_create 1 3 [] { email := "a@x.com", full_name := "A", password := "pw123456" }).1.hashed_password
        = hash_password 3 "pw123456") :=
  ⟨⟨by decide,
    (claim_C10_crud_create_dollar_passwords 1 3 []
      { email := "a@x.com", full_name := "A", password := "$ecret" }).1 (by decide)⟩,
   ⟨by decide,
    (claim_C10_crud_create_dollar_passwords 1 3 []
      { email := "a@x.com", full_name := "A", password := "pw123456" }).2 (by decide)⟩⟩

theorem pyTruthy_eq_true_iff (o : Option Bool) : pyTruthy o = true ↔ o = some true := by
  cases o <;> simp [pyTruthy]

/-- C2: the admin gate accepts an account exactly when its
`is_superuser` attribute (`getattr` with default `False`; the `User` model
declares no such field, so it is `False` on every account) is true, passing
the account through unchanged, and rejects a non-admin account with the 403
Forbidden error. -/
theorem claim_C2_admin_gate (u : User) :
    (get_current_admin_user u = .ok u ↔ getattr_is_superuser u = true) ∧
    (getattr_is_superuser u = false →
      get_current_admin_user u = .error admin_forbidden_error) := by
  refine ⟨⟨fun h => ?_, fun h => ?_⟩, fun h => ?_⟩
  · simp [get_current_admin_user, getattr_is_superuser] at h
  · simp [getattr_is_superuser] at h
  · simp [get_current_admin_user, h]

/-- Witness for C2: the sample account is non-admin and is rejected with the
403 Forbidden error. -/
theorem claim_C2_admin_gate_witness :
    getattr_is_superuser sampleUser = false ∧
    get_current_admin_user sampleUser = .error admin_forbidden_error :=
  ⟨rfl, (claim_C2_admin_gate sampleUser).2 rfl⟩

/-- C3: a login attempt with an unregistered email and a login attempt with
a registered (active) email but a password failing credential verification
produce the same rejection value — the same status code and the same
"Incorrect email or password" message — so the response does not reveal
whether the email is registered. -/
theorem claim_C3_login_uniform_rejection (cfg : Settings) (db : List User)
    (now : Nat) (email₁ pw₁ email₂ pw₂ : String) (u : User)
    (h₁ : get_by_email db email₁ = none)
    (h₂ : get_by_email db email₂ = some u)
    (_hact : u.is_active = some true)
    (hpw : verify_password pw₂ u.hashed_password = false) :
    (login cfg db now email₁ pw₁).1 = .error invalid_credentials_error ∧
    (login cfg db now email₂ pw₂).1 = .error invalid_credentials_error := by
  constructor
  · simp [login, h₁]
  · simp [login, h₂, hpw]

/-- Witness for C3: `nobody@x.com` is unregistered, `a@x.com` is registered
and active with the credential of `"pw123456"`, and `"wrongpw"` fails
verification; both attempts yield the same rejection. -/
theorem claim_C3_login_uniform_rejection_witness :
    get_by_email sampleDb "nobody@x.com" = none ∧
    get_by_email sampleDb "a@x.com" = some sampleUser ∧
    sampleUser.is_active = some true ∧
    verify_password "wrongpw" sampleUser.hashed_password = false ∧
    ((login sampleSettings sampleDb 50 "nobody@x.com" "pw123456").1 =
        .error invalid_credentials_error ∧
      (login sampleSettings sampleDb 50 "a@x.com" "wrongpw").1 =
        .error invalid_credentials_error) :=
  ⟨by decide, by decide, rfl, by decide,
    claim_C3_login_uniform_rejection sampleSettings sampleDb 50
      "nobody@x.com" "pw123456" "a@x.com" "wrongpw" sampleUser
      (by decide) (by decide) rfl (by decide)⟩

/-- C4: a login for an existing account whose credential verifies the
supplied password but whose active flag is false is rejected with the
"User account is inactive" error, whose message is distinct from the
generic "Incorrect email or password" message; no token is issued and the
database is unchanged. -/
theorem claim_C4_login_inactive_distinct (cfg : Settings) (db : List User)
    (now : Nat) (email pw : String) (u : User)
    (h : get_by_email db email = some u)
    (hpw : verify_password pw u.hashed_password = true)
    (hact : u.is_active = some false) :
    login cfg db now email pw = (.error inactive_error, db) ∧
    inactive_error.detail ≠ invalid_credentials_error.detail := by
  refine ⟨?_, by decide⟩
  simp [login, h, hpw, hact, pyTruthy]

/-- Witness for C4: `b@x.com` exists with the credential of `"pw123456"`
but is deactivated; login with the correct password is rejected as
inactive. -/
theorem claim_C4_login_inactive_distinct_witness :
    get_by_email sampleDb "b@x.com" = some sampleInactiveUser ∧
    verify_password "pw123456" sampleInactiveUser.hashed_password = true ∧
    sampleInactiveUser.is_active = some false ∧
    (login sampleSettings sampleDb 50 "b@x.com" "pw123456" =
      (.error inactive_error, sampleDb) ∧
      inactive_error.detail ≠ invalid_credentials_error.detail) :=
  ⟨by decide, by decide, rfl,
    claim_C4_login_inactive_distinct sampleSettings sampleDb 50 "b@x.com"
      "pw123456" sampleInactiveUser (by decide) (by decide) rfl⟩

/-- C5: a registration whose email equals the email of an existing account
is rejected with the 400 "The user with this email already exists." error
(the `Conflict` case of the error taxonomy) and the database is unchanged —
no account is created. -/
theorem claim_C5_duplicate_email_conflict (new_id salt : Nat) (db : List User)
    (user_in : UserCreate) (u : User)
    (hu : u ∈ db) (he : u.email = user_in.email) :
    create_user new_id salt db user_in = (.error email_exists_error, db) := by
  have hex : ∃ x, x ∈ db ∧ (x.email == user_in.email) = true := ⟨u, hu, by simp [he]⟩
  have hsome : (db.find? (fun x => x.email == user_in.email)).isSome :=
    List.find?_isSome.2 hex
  obtain ⟨v, hv⟩ := Option.isSome_iff_exists.1 hsome
  simp [create_user, get_by_email, hv]

/-- Witness for C5: registering `a@x.com` again against the sample database
is rejected with the duplicate-email error and creates nothing. -/
theorem claim_C5_duplicate_email_conflict_witness :
    sampleUser ∈ sampleDb ∧ sampleUser.email = "a@x.com" ∧
    create_user 9 7 sampleDb
        { email := "a@x.com", full_name := "Dup", password := "pw999999" } =
      (.error email_exists_error, sampleDb) :=
  ⟨by decide, rfl,
    claim_C5_duplicate_email_conflict 9 7 sampleDb
      { email := "a@x.com", full_name := "Dup", password := "pw999999" }
      sampleUser (by decide) rfl⟩

/-- Counterexample to C8 as stated: with the TTL configured to 0 minutes,
a login that passes the credential check and the active check issues a
token expiring `15 * 60` seconds from now — the falsy `timedelta(0)`
fallback — not `0 * 60` seconds (the configured TTL) from now. -/
theorem claim_C8_login_success_counterexample :
    (login { SECRET_KEY := "k", ACCESS_TOKEN_EXPIRE_MINUTES := 0 } sampleDb 50
        "a@x.com" "pw123456").1 =
      .ok { access_token :=
              jwt_encode "k" { sub := some "a@x.com", exp := 50 + 15 * 60 },
            token_type := "bearer" } ∧
    50 + 15 * 60 ≠ 50 + 0 * 60 := by
  refine ⟨?_, by decide⟩
  have h : get_by_email sampleDb "a@x.com" = some sampleUser := by decide
  have hpw : verify_password "pw123456" (hash_password 3 "pw123456") = true := by decide
  simp [login, h, hpw, pyTruthy, sampleUser, create_access_token, jwt_encode]

/-- C8 (amended): a login that passes the credential check and the active
check, under a nonzero configured TTL, returns a bearer token whose subject
is the account's email and whose expiry is the configured TTL from now,
signed with the configured key, and the only database change is setting
that account's `last_login` to now — every other field of every row is
unchanged.  (With the TTL configured to 0 minutes the falsy `timedelta(0)`
falls back to a 15-minute expiry.) -/
theorem claim_C8_login_success (cfg : Settings) (db : List User) (now : Nat)
    (email pw : String) (u : User)
    (hcfg : cfg.ACCESS_TOKEN_EXPIRE_MINUTES ≠ 0)
    (h : get_by_email db email = some u)
    (hpw : verify_password pw u.hashed_password = true)
    (hact : u.is_active = some true) :
    (∃ tok : Token,
      (login cfg db now email pw).1 = .ok tok ∧
      tok.token_type = "bearer" ∧
      tok.access_token.payload.sub = some u.email ∧
      tok.access_token.payload.exp = now + cfg.ACCESS_TOKEN_EXPIRE_MINUTES * 60 ∧
      tok.access_token.sig = jwt_sign cfg.SECRET_KEY tok.access_token.payload) ∧
    (login cfg db now email pw).2 =
      db.map (fun x => if x = u then { x with last_login := some now } else x) := by
  have hlogin : login cfg db now email pw =
      (.ok { access_token := create_access_token cfg.SECRET_KEY u.email now
               (some (cfg.ACCESS_TOKEN_EXPIRE_MINUTES * 60)),
             token_type := "bearer" },
        update_last_login db u now) := by
    simp [login, h, hpw, hact, pyTruthy]
  have hpos : 0 < cfg.ACCESS_TOKEN_EXPIRE_MINUTES * 60 := by
    have := Nat.pos_of_ne_zero hcfg
    omega
  have hexp : (create_access_token cfg.SECRET_KEY u.email now
      (some (cfg.ACCESS_TOKEN_EXPIRE_MINUTES * 60))).payload.exp =
      now + cfg.ACCESS_TOKEN_EXPIRE_MINUTES * 60 := by
    simp [create_access_token, jwt_encode, hpos]
  refine ⟨⟨_, by rw [hlogin], rfl, rfl, hexp, rfl⟩, by rw [hlogin]; rfl⟩

/-- Witness for C8: with the default 30-minute TTL, logging `a@x.com` in
with its correct password at time 50 issues a bearer token for `a@x.com`
expiring at `50 + 30 * 60` and stamps `last_login`. -/
theorem claim_C8_login_success_witness :
    sampleSettings.ACCESS_TOKEN_EXPIRE_MINUTES ≠ 0 ∧
    get_by_email sampleDb "a@x.com" = some sampleUser ∧
    verify_password "pw123456" sampleUser.hashed_password = true ∧
    sampleUser.is_active = some true ∧
    ((∃ tok : Token,
      (login sampleSettings sampleDb 50 "a@x.com" "pw123456").1 = .ok tok ∧
      tok.token_type = "bearer" ∧
      tok.access_token.payload.sub = some sampleUser.email ∧
      tok.access_token.payload.exp =
        50 + sampleSettings.ACCESS_TOKEN_EXPIRE_MINUTES * 60 ∧
      tok.access_token.sig =
        jwt_sign sampleSettings.SECRET_KEY tok.access_token.payload) ∧
    (login sampleSettings sampleDb 50 "a@x.com" "pw123456").2 =
      sampleDb.map (fun x =>
        if x = sampleUser then { x with last_login := some 50 } else x)) :=
  ⟨by decide, by decide, by decide, rfl,
    claim_C8_login_success sampleSettings sampleDb 50 "a@x.com" "pw123456"
      sampleUser (by decide) (by decide) (by decide) rfl⟩

/-- C1: the Identity Resolver returns an account exactly when the token's
signature verifies under the configured key, the current time is before the
token's expiry, the subject resolves to an existing account by email, and
that account's active flag is true; whenever any of the four conditions
fails, no account is returned (the result is an error, never partial
success). -/
theorem claim_C1_identity_resolver (key : String) (db : List User) (now : Nat)
    (token : JWT) (u : User) :
    get_current_user key db now token = .ok u ↔
      (token.sig = jwt_sign key token.payload ∧
       now < token.payload.exp ∧
       ∃ email, token.payload.sub = some email ∧
         get_by_email db email = some u ∧
         u.is_active = some true) := by
  unfold get_current_user
  rcases hdec : jwt_decode key now token with r | payload
  · unfold jwt_decode at hdec
    split_ifs at hdec with h₁ h₂
    · constructor
      · intro h; exact Except.noConfusion h
      · rintro ⟨hsig, -, -⟩; exact absurd hsig h₁
    · constructor
      · intro h; exact Except.noConfusion h
      · rintro ⟨-, hlt, -⟩; omega
  · have hrest : token.sig = jwt_sign key token.payload ∧
        now < token.payload.exp ∧ payload = token.payload := by
      unfold jwt_decode at hdec
      split_ifs at hdec with h₁ h₂
      exact ⟨not_not.1 h₁, by omega, (Except.ok.inj hdec).symm⟩
    obtain ⟨hsig, hexp, hpayload⟩ := hrest
    subst hpayload
    rcases hsub : token.payload.sub with _ | email
    · simp only [hsub]
      constructor
      · intro h; exact Except.noConfusion h
      · rintro ⟨-, -, e, he, -⟩; exact Option.noConfusion he
    · simp only [hsub]
      rcases hfind : get_by_email db email with _ | v
      · constructor
        · intro h; exact Except.noConfusion h
        · rintro ⟨-, -, e, he, hge, -⟩
          obtain rfl : email = e := Option.some.inj he
          rw [hfind] at hge
          exact Option.noConfusion hge
      · by_cases hact : pyTruthy v.is_active = true
        · simp only [hact, not_true, if_false]
          constructor
          · intro h
            obtain rfl : v = u := Except.ok.inj h
            exact ⟨hsig, hexp, email, rfl, hfind, (pyTruthy_eq_true_iff _).1 hact⟩
          · rintro ⟨-, -, e, he, hge, -⟩
            obtain rfl : email = e := Option.some.inj he
            rw [hfind] at hge
            obtain rfl : v = u := Option.some.inj hge
            rfl
        · have hact' : pyTruthy v.is_active = false := by simpa using hact
          simp only [hact']
          constructor
          · intro h
            rw [if_pos (by simp)] at h
            exact Except.noConfusion h
          · rintro ⟨-, -, e, he, hge, hua⟩
            obtain rfl : email = e := Option.some.inj he
            rw [hfind] at hge
            obtain rfl : v = u := Option.some.inj hge
            exact absurd ((pyTruthy_eq_true_iff _).2 hua) hact

/-- The sample token decodes successfully at time 50 with the sample key. -/
theorem jwt_decode_sampleToken :
    jwt_decode sampleSettings.SECRET_KEY 50 sampleToken =
      .ok { sub := some "a@x.com", exp := 100 } := by
  simp [jwt_decode, sampleToken, jwt_encode]

/-- Looking `a@x.com` up in the sample database yields the sample account. -/
theorem get_by_email_sample : get_by_email sampleDb "a@x.com" = some sampleUser := by
  decide

/-- Witness for C1: with the sample key, database and token at time 50, all
four conditions hold and the resolver returns the sample account. -/
theorem claim_C1_identity_resolver_witness :
    get_current_user sampleSettings.SECRET_KEY sampleDb 50 sampleToken =
      .ok sampleUser :=
  (claim_C1_identity_resolver sampleSettings.SECRET_KEY sampleDb 50
      sampleToken sampleUser).2
    ⟨rfl, by decide, "a@x.com", rfl, get_by_email_sample, rfl⟩

/-- Counterexample to C6 as stated: a token issued at time 0 with TTL 0
(Python's falsy `timedelta(0)` makes `if expires_delta:` take the default
branch) still verifies at time 60, even though `60 > issuance_time + ttl =
0`, because the issuer fell back to the 15-minute default expiry. -/
theorem claim_C6_issue_verify_roundtrip_counterexample :
    (0 : Nat) + 0 < 60 ∧
    jwt_decode "k" 60 (create_access_token "k" "a@x.com" 0 (some 0)) =
      .ok { sub := some "a@x.com", exp := 15 * 60 } := by
  refine ⟨by decide, ?_⟩
  simp [jwt_decode, create_access_token, jwt_encode]

/-- C6 (amended): a token issued by `create_access_token` for a subject
with a nonzero TTL, verified with the same key, succeeds — yielding a
claim with that subject — at any time strictly before
`issuance_time + ttl`, and fails with the expiry rejection at any time
strictly after `issuance_time + ttl`.  (A TTL of 0 is a falsy
`timedelta(0)` in Python and falls back to the 15-minute default.) -/
theorem claim_C6_issue_verify_roundtrip (key subject : String) (t₀ ttl t : Nat)
    (httl : ttl ≠ 0) :
    (t < t₀ + ttl →
      jwt_decode key t (create_access_token key subject t₀ (some ttl)) =
        .ok { sub := some subject, exp := t₀ + ttl }) ∧
    (t₀ + ttl < t →
      jwt_decode key t (create_access_token key subject t₀ (some ttl)) =
        .error .expired) := by
  have hpos : 0 < ttl := Nat.pos_of_ne_zero httl
  constructor
  · intro h
    have h₂ : ¬ (t₀ + ttl ≤ t) := by omega
    simp [jwt_decode, create_access_token, jwt_encode, hpos, h₂]
  · intro h
    have h₂ : t₀ + ttl ≤ t := by omega
    simp [jwt_decode, create_access_token, jwt_encode, hpos, h₂]

/-- Witness for C6: a token issued at time 0 with a (nonzero) 600-second
TTL verifies at time 50 and is rejected as expired at time 1000. -/
theorem claim_C6_issue_verify_roundtrip_witness :
    (600 : Nat) ≠ 0 ∧ (50 : Nat) < 0 + 600 ∧ (0 : Nat) + 600 < 1000 ∧
    jwt_decode "k" 50 (create_access_token "k" "a@x.com" 0 (some 600)) =
      .ok { sub := some "a@x.com", exp := 0 + 600 } ∧
    jwt_decode "k" 1000 (create_access_token "k" "a@x.com" 0 (some 600)) =
      .error .expired :=
  ⟨by decide, by decide, by decide,
    (claim_C6_issue_verify_roundtrip "k" "a@x.com" 0 600 50 (by decide)).1 (by decide),
    (claim_C6_issue_verify_roundtrip "k" "a@x.com" 0 600 1000 (by decide)).2 (by decide)⟩

/-- C9: `read_users` is guarded only by the ordinary authenticated-user
dependency: whenever `get_current_user` resolves the request to an account
— an account the admin gate itself rejects with 403 — the endpoint
nevertheless succeeds and returns the page of user records. -/
theorem claim_C9_read_users_not_admin_gated (key : String) (db : List User)
    (now : Nat) (token : JWT) (pagination : PaginationParams) (u : User)
    (h : get_current_user key db now token = .ok u) :
    get_current_admin_user u = .error admin_forbidden_error ∧
    read_users key db now token pagination =
      .ok ((get_multi db pagination.skip pagination.limit).map UserRead.ofUser,
        { total_items := get_count db,
          total_pages :=
            if pagination.limit > 0 then
              (get_count db + pagination.limit - 1) / pagination.limit
            else 0,
          current_page :=
            if pagination.limit > 0 then pagination.skip / pagination.limit + 1
            else 1,
          limit := pagination.limit }) := by
  refine ⟨by simp [get_current_admin_user, getattr_is_superuser], ?_⟩
  simp [read_users, h]

/-- Witness for C9: the sample (non-admin) account authenticates with the
sample token and `read_users` returns both rows of the sample database. -/
theorem claim_C9_read_users_not_admin_gated_witness :
    get_current_user sampleSettings.SECRET_KEY sampleDb 50 sampleToken =
      .ok sampleUser ∧
    (get_current_admin_user sampleUser = .error admin_forbidden_error ∧
      read_users sampleSettings.SECRET_KEY sampleDb 50 sampleToken
          { skip := 0, limit := 100 } =
        .ok ((get_multi sampleDb 0 100).map UserRead.ofUser,
          { total_items := get_count sampleDb,
            total_pages :=
              if (100 : Nat) > 0 then (get_count sampleDb + 100 - 1) / 100 else 0,
            current_page := if (100 : Nat) > 0 then 0 / 100 + 1 else 1,
            limit := 100 })) := by
  have hres : get_current_user sampleSettings.SECRET_KEY sampleDb 50 sampleToken =
      .ok sampleUser := by
    simp [get_current_user, jwt_decode_sampleToken, get_by_email_sample,
      pyTruthy, sampleUser]
  exact ⟨hres,
    claim_C9_read_users_not_admin_gated sampleSettings.SECRET_KEY sampleDb 50
      sampleToken { skip := 0, limit := 100 } sampleUser hres⟩

end FastApiTemplate
